import Mathlib

/-!
Shallow embedding of src/tools/evemu-play.c.

The tool has two logical commands sharing one binary: the create-device
command (function `device`, dispatched on the program name) and the replay
command (function `play`).  External collaborators (the evemu library calls
evemu_new / evemu_read / evemu_create_managed / evemu_destroy / evemu_delete /
evemu_play / evemu_get_devnode, and the system calls open / read / close /
fdopen / fstat / sched_setaffinity / sched_setscheduler / mlockall) are
modelled by environment records whose fields are the results those calls
return in one particular run; the embedded functions compute, for each
environment, the return value of the C function together with the trace of
externally visible actions it performs, in program order.  `errno` is
modelled explicitly where the code reads or restores it (`create_device`).
-/

/-- The source stream handed to evemu_play: the process's standard input
(live mode) or the rewound recording file (file mode). -/
inductive Source where
  | stdinS
  | fileS
deriving Repr, DecidableEq

/-- Diagnostic and status lines the tool prints; content is abstracted,
only which line is emitted and on which stream is kept. -/
inductive Msg where
  | usage
  | openFileFailed
  | statFailed
  | noDevnode
  | openDevFailed
  | deviceStatus
  | startBanner
  | offsetBanner
  | replayFailed
  | createDeviceFailed
  | affinityOkLine
  | affinityFailedLine
  | schedOkLine
  | schedFailedLine
  | mlockOkLine
  | mlockFailedLine
deriving Repr, DecidableEq

/-- Externally visible actions of one run, in program order. -/
inductive Act where
  | pinCpu
  | setSchedCall
  | lockMemCall
  | stdoutMsg (m : Msg)
  | stderrMsg (m : Msg)
  | evemuNew
  | evemuRead
  | setName (n : String)
  | createManaged (n : String)
  | evemuDestroy
  | evemuDelete
  | fseekCall
  | evemuPlayCall (src : Source) (fd : Int) (off : Int)
  | readDev
  | closeFd
  | fcloseCall
deriving Repr, DecidableEq

/-- The three scheduling-tuner attempts of setup_realtime_cpu. -/
def Act.isTuneAttempt : Act → Bool
  | .pinCpu => true
  | .setSchedCall => true
  | .lockMemCall => true
  | _ => false

/-- The evemu device handle state this tool observes: its name. -/
structure Dev where
  name : String
deriving Repr, DecidableEq

/-- Environment of create_device: outcomes of the external library calls.
`newOk` is whether evemu_new(NULL) returns a non-NULL handle; `readRet` the
return of evemu_read; `readName` the descriptor name after evemu_read (the
empty string when the description carries no name); `cmRet` the return of
evemu_create_managed; the `...Errno` fields are the value of errno right
after the corresponding call returns (evemu_destroy may clobber errno, which
the code saves around it); `pid` is getpid(). -/
structure CreateEnv where
  newOk : Bool
  newErrno : Nat
  readRet : Int
  readName : String
  readErrno : Nat
  cmRet : Int
  cmErrno : Nat
  destroyErrno : Nat
  pid : Nat
deriving Repr, DecidableEq

/-- create_device (evemu-play.c lines 99-130).  Returns the device handle
(`none` for NULL), the action trace, and the errno value the caller
observes on return.  Mirrors the C control flow: ret starts at -ENOMEM;
`if (!dev) goto out; ret = evemu_read(...); if (ret <= 0) goto out;` then
the empty-name branch, then `ret = evemu_create_managed(dev);
if (ret < 0) goto out;` and at out: `if (ret && dev) { saved_errno = errno;
evemu_destroy(dev); dev = NULL; errno = saved_errno; }`. -/
def create_device (e : CreateEnv) : Option Dev × List Act × Nat :=
  if e.newOk = false then
    -- ret = -ENOMEM is nonzero but dev is NULL, so the cleanup guard
    -- `if (ret && dev)` is false: no destroy, return NULL.
    (none, [Act.evemuNew], e.newErrno)
  else if e.readRet = 0 then
    -- goto out with ret = 0: the guard `if (ret && dev)` is false,
    -- so the undestroyed, unregistered handle is returned as if success.
    (some ⟨e.readName⟩, [Act.evemuNew, Act.evemuRead], e.readErrno)
  else if e.readRet < 0 then
    -- goto out with ret < 0 and dev non-NULL: save errno, destroy, restore.
    let saved_errno := e.readErrno
    let _errno_during_cleanup := e.destroyErrno
    (none, [Act.evemuNew, Act.evemuRead, Act.evemuDestroy], saved_errno)
  else
    let n := if e.readName = "" then "evemu-" ++ toString e.pid else e.readName
    let tr := [Act.evemuNew, Act.evemuRead]
      ++ (if e.readName = "" then [Act.setName n] else [])
      ++ [Act.createManaged n]
    if e.cmRet = 0 then
      (some ⟨n⟩, tr, e.cmErrno)
    else
      -- ret nonzero and dev non-NULL at out: save errno, destroy, restore.
      let saved_errno := e.cmErrno
      let _errno_during_cleanup := e.destroyErrno
      (none, tr ++ [Act.evemuDestroy], saved_errno)

/-- Environment of open_evemu_device: whether evemu_get_devnode returns a
node path, and the return of open(node, O_RDWR). -/
structure OpenDevEnv where
  devnodeOk : Bool
  openRet : Int
deriving Repr, DecidableEq

/-- open_evemu_device (lines 61-81): resolve the device node, open it
read/write, print the "name: node" status line on success. -/
def open_evemu_device (e : OpenDevEnv) : Int × List Act :=
  if e.devnodeOk = false then (-1, [Act.stderrMsg Msg.noDevnode])
  else if e.openRet < 0 then (-1, [Act.stderrMsg Msg.openDevFailed])
  else (e.openRet, [Act.stdoutMsg Msg.deviceStatus])

/-- One result of read(fd, data, sizeof(data)) in the hold loop: the
return value and the bytes placed in the scratch buffer. -/
structure ReadResult where
  ret : Int
  data : List Nat
deriving Repr, DecidableEq

/-- The drain loop of open_and_hold_device (lines 93-94):
`while ((ret = read(fd, data, sizeof(data))) > 0);` — one readDev action
per read call, stopping after the first zero-or-negative result.  The
buffer contents are discarded: the loop body is empty. -/
def drain : List ReadResult → List Act
  | [] => []
  | r :: rs => Act.readDev :: (if 0 < r.ret then drain rs else [])

/-- open_and_hold_device (lines 83-97): open the node, return at once on
failure, otherwise drain until EOF or error and close the descriptor. -/
def open_and_hold_device (e : OpenDevEnv) (reads : List ReadResult) : List Act :=
  let o := open_evemu_device e
  if o.1 < 0 then o.2
  else o.2 ++ drain reads ++ [Act.closeFd]

/-- evemu_device (lines 132-144): create the device, hold it open, delete
it; returns -1 when creation failed and 0 otherwise. -/
def evemu_device (ce : CreateEnv) (od : OpenDevEnv) (reads : List ReadResult) :
    Int × List Act :=
  match (create_device ce).1 with
  | none => (-1, (create_device ce).2.1)
  | some _ =>
      (0, (create_device ce).2.1 ++ open_and_hold_device od reads
            ++ [Act.evemuDelete])

/-- Environment of the create-device command `device`: argc, whether
fopen(argv[1], "r") succeeds, and the environments of the callees. -/
structure DeviceEnv where
  argc : Nat
  fopenOk : Bool
  ce : CreateEnv
  od : OpenDevEnv
  reads : List ReadResult
deriving Repr, DecidableEq

/-- device (lines 147-167).  Note the check `if (ret <= 0)` on the result
of evemu_device, which returns only 0 (success) or -1 (failure). -/
def device (e : DeviceEnv) : Int × List Act :=
  if e.argc < 2 then (-1, [Act.stderrMsg Msg.usage])
  else if e.fopenOk = false then (-1, [Act.stderrMsg Msg.openFileFailed])
  else
    let r := evemu_device e.ce e.od e.reads
    if r.1 ≤ 0 then (-1, r.2 ++ [Act.stderrMsg Msg.createDeviceFailed])
    else (0, r.2 ++ [Act.fcloseCall])

/-- play_from_stdin (lines 169-179): evemu_play from stdin onto the given
descriptor with a hard-coded start offset of 0; report failure to stderr;
return evemu_play's result. -/
def play_from_stdin (fd : Int) (playRet : Int) : Int × List Act :=
  (playRet,
    [Act.evemuPlayCall Source.stdinS fd 0]
      ++ (if playRet ≠ 0 then [Act.stderrMsg Msg.replayFailed] else []))

/-- Environment of play_from_file: whether fdopen succeeds, the
create_device environment, the open_evemu_device environment for the new
device's node, and the result of evemu_play on the rewound file. -/
structure FileModeEnv where
  fdopenOk : Bool
  ce : CreateEnv
  od : OpenDevEnv
  playRet : Int
deriving Repr, DecidableEq

/-- play_from_file (lines 183-225): wrap the recording descriptor in a
stream, create the device, open its node, print the banner, rewind, replay
with the caller's offset, and on the shared exit path delete the device,
fclose the stream and close the node descriptor; returns 0 from that
shared path regardless of open or replay failure. -/
def play_from_file (e : FileModeEnv) (off : Int) : Int × List Act :=
  if e.fdopenOk = false then (-1, [Act.stderrMsg Msg.openFileFailed])
  else
    let c := create_device e.ce
    match c.1 with
    | none => (-1, c.2.1 ++ [Act.stderrMsg Msg.createDeviceFailed, Act.fcloseCall])
    | some _ =>
        let o := open_evemu_device e.od
        if o.1 < 0 then
          (0, c.2.1 ++ o.2 ++ [Act.evemuDelete, Act.fcloseCall, Act.closeFd])
        else
          (0, c.2.1 ++ o.2
                ++ [Act.stdoutMsg Msg.startBanner, Act.fseekCall,
                    Act.evemuPlayCall Source.fileS o.1 off]
                ++ (if e.playRet ≠ 0 then [Act.stderrMsg Msg.replayFailed] else [])
                ++ [Act.evemuDelete, Act.fcloseCall, Act.closeFd])

/-- Environment of the replay command `play`: argc, the parsed offset
argument (used only when argc = 3), whether open(argv[1]) and fstat
succeed, the descriptor open returned, S_ISCHR of the target's stat mode,
the evemu_play result of live mode, and the file-mode environment. -/
structure PlayEnv where
  argc : Nat
  offsetArg : Int
  openOk : Bool
  targetFd : Int
  fstatOk : Bool
  isChr : Bool
  stdinPlayRet : Int
  fileEnv : FileModeEnv
deriving Repr, DecidableEq

/-- play (lines 227-270): usage check, open and fstat the target, parse
the optional offset, then dispatch on S_ISCHR(st.st_mode): live mode
replays stdin onto the target descriptor, file mode creates and replays;
either way the return value of the mode function is discarded and play
closes the target and returns 0. -/
def play (e : PlayEnv) : Int × List Act :=
  if e.argc < 2 ∨ 3 < e.argc then (-1, [Act.stderrMsg Msg.usage])
  else if e.openOk = false then (-1, [Act.stderrMsg Msg.openFileFailed])
  else if e.fstatOk = false then (-1, [Act.stderrMsg Msg.statFailed])
  else
    let off : Int := if e.argc = 3 then e.offsetArg else 0
    let offTr : List Act := if e.argc = 3 then [Act.stdoutMsg Msg.offsetBanner] else []
    if e.isChr then
      (0, offTr ++ (play_from_stdin e.targetFd e.stdinPlayRet).2 ++ [Act.closeFd])
    else
      (0, offTr ++ (play_from_file e.fileEnv off).2 ++ [Act.closeFd])

/-- Environment of setup_realtime_cpu: whether each of the three
best-effort steps succeeds. -/
structure TuneEnv where
  affinityOk : Bool
  schedOk : Bool
  mlockOk : Bool
deriving Repr, DecidableEq

/-- setup_realtime_cpu (lines 272-312): pin the CPU, enable SCHED_FIFO,
lock memory — three unconditional attempts in that order, each logging its
own success (stdout) or failure (perror, stderr) and never aborting the
rest; the function returns nothing. -/
def setup_realtime_cpu (e : TuneEnv) : List Act :=
  [Act.pinCpu,
   if e.affinityOk then Act.stdoutMsg Msg.affinityOkLine
     else Act.stderrMsg Msg.affinityFailedLine,
   Act.setSchedCall,
   if e.schedOk then Act.stdoutMsg Msg.schedOkLine
     else Act.stderrMsg Msg.schedFailedLine,
   Act.lockMemCall,
   if e.mlockOk then Act.stdoutMsg Msg.mlockOkLine
     else Act.stderrMsg Msg.mlockFailedLine]

/-- Everything main needs besides the tuner environment: the program
invocation name and the environments of the two commands (both views of
the same argv; only the dispatched one is consulted). -/
structure MainRest where
  progName : String
  devE : DeviceEnv
  playE : PlayEnv
deriving Repr, DecidableEq

/-- main (lines 314-326): run the scheduling tuner first, then dispatch on
the program invocation name to the create-device command or the replay
command, returning that command's result. -/
def main_run (te : TuneEnv) (r : MainRest) : Int × List Act :=
  let tune := setup_realtime_cpu te
  if r.progName = "evemu-device" ∨ r.progName = "lt-evemu-device" then
    ((device r.devE).1, tune ++ (device r.devE).2)
  else
    ((play r.playE).1, tune ++ (play r.playE).2)

/-! ## Helper lemmas -/

/-- The drain loop consumes exactly the positive reads and the first
zero-or-negative one, whatever comes after it and whatever the buffers
contained. -/
theorem drain_eof (pos : List ReadResult) (z : ReadResult) (rest : List ReadResult)
    (hpos : ∀ r ∈ pos, 0 < r.ret) (hz : z.ret ≤ 0) :
    drain (pos ++ z :: rest) = List.replicate (pos.length + 1) Act.readDev := by
  induction pos with
  | nil => simp [drain, show ¬(0 < z.ret) by omega]
  | cons r pos ih =>
      have hr : 0 < r.ret := hpos r (by simp)
      have ih' := ih (fun x hx => hpos x (by simp [hx]))
      simp [drain, hr, ih', List.replicate_succ]

/-- Every run of create_device performs the evemu_new call. -/
theorem evemuNew_in_create (ce : CreateEnv) :
    Act.evemuNew ∈ (create_device ce).2.1 := by
  unfold create_device
  split_ifs <;> simp

/-- A synthetic name of the form "evemu-" ++ s is never the empty string. -/
theorem synthetic_name_ne_empty (s : String) : "evemu-" ++ s ≠ "" := by
  intro h
  have hlen := congrArg String.length h
  rw [String.length_append] at hlen
  have h6 : ("evemu-" : String).length = 6 := rfl
  have h0 : ("" : String).length = 0 := rfl
  omega


/-! ## Claims -/

/-- Claim C4: for a descriptor whose reads yield N positive results followed
by a zero-or-negative result, the hold loop of open_and_hold_device performs
exactly N+1 read calls, then closes the descriptor and returns; it never
reads past the zero-or-negative result (the trace is independent of whatever
would come after it) and never interprets the drained bytes (the trace is
independent of the data fields). -/
theorem c4_hold_loop (e : OpenDevEnv) (pos : List ReadResult) (z : ReadResult)
    (rest : List ReadResult) (hpos : ∀ r ∈ pos, 0 < r.ret) (hz : z.ret ≤ 0)
    (hd : e.devnodeOk = true) (ho : 0 ≤ e.openRet) :
    open_and_hold_device e (pos ++ z :: rest) =
      Act.stdoutMsg Msg.deviceStatus ::
        (List.replicate (pos.length + 1) Act.readDev ++ [Act.closeFd]) := by
  simp [open_and_hold_device, open_evemu_device, hd, show ¬(e.openRet < 0) by omega,
        drain_eof pos z rest hpos hz]

/-- Concrete instance of c4_hold_loop: one positive read, then EOF, with a
further pending result behind the EOF that is never requested. -/
theorem c4_hold_loop_witness :
    (∀ r ∈ [ReadResult.mk 3 [9, 9]], 0 < r.ret) ∧ (ReadResult.mk 0 []).ret ≤ 0 ∧
    open_and_hold_device (OpenDevEnv.mk true 2)
        ([ReadResult.mk 3 [9, 9]] ++ ReadResult.mk 0 [] :: [ReadResult.mk 7 []]) =
      Act.stdoutMsg Msg.deviceStatus ::
        (List.replicate 2 Act.readDev ++ [Act.closeFd]) :=
  ⟨by decide, by decide,
   c4_hold_loop (OpenDevEnv.mk true 2) [ReadResult.mk 3 [9, 9]] (ReadResult.mk 0 [])
     [ReadResult.mk 7 []] (by decide) (by decide) rfl (by decide)⟩

/-- Claim C9: when evemu_new succeeds and evemu_read returns exactly zero,
create_device returns a non-null handle even though loading failed: the
cleanup at out is guarded by a nonzero ret, so ret = 0 bypasses both the
evemu_destroy call and the NULL return, and no registration
(evemu_create_managed) was ever attempted. -/
theorem c9_read_zero_returns_device (e : CreateEnv) (hn : e.newOk = true)
    (hr : e.readRet = 0) :
    (create_device e).1.isSome = true ∧
    Act.evemuDestroy ∉ (create_device e).2.1 ∧
    ∀ n, Act.createManaged n ∉ (create_device e).2.1 := by
  simp [create_device, hn, hr]

/-- Concrete instance of c9_read_zero_returns_device. -/
theorem c9_read_zero_returns_device_witness :
    (CreateEnv.mk true 0 0 "x" 7 0 0 9 1).newOk = true ∧
    (CreateEnv.mk true 0 0 "x" 7 0 0 9 1).readRet = 0 ∧
    ((create_device (CreateEnv.mk true 0 0 "x" 7 0 0 9 1)).1.isSome = true ∧
     Act.evemuDestroy ∉ (create_device (CreateEnv.mk true 0 0 "x" 7 0 0 9 1)).2.1 ∧
     ∀ n, Act.createManaged n ∉ (create_device (CreateEnv.mk true 0 0 "x" 7 0 0 9 1)).2.1) :=
  ⟨rfl, rfl, c9_read_zero_returns_device (CreateEnv.mk true 0 0 "x" 7 0 0 9 1) rfl rfl⟩

/-- Claim C2 (code bug): on the failure path where evemu_read returns
exactly zero, create_device neither destroys the allocated device nor
returns a failure indicator — it hands the undestroyed, unregistered handle
back to the caller as if creation had succeeded.  Full evaluation of the
code at that input. -/
theorem c2_read_zero_skips_cleanup :
    create_device (CreateEnv.mk true 0 0 "" 7 0 0 99 5) =
      (some (Dev.mk ""), [Act.evemuNew, Act.evemuRead], 7) := rfl

/-- Claim C5: when the description loads with an empty name, create_device
assigns the synthetic name "evemu-" ++ pid before the registration call:
the trace starts with evemu_new, evemu_read, the set-name, then the
registration carrying that same name, and the name is non-empty and depends
only on the process id. -/
theorem c5_synthetic_name (e : CreateEnv) (hn : e.newOk = true)
    (hr : 0 < e.readRet) (hname : e.readName = "") :
    (create_device e).2.1.take 4 =
      [Act.evemuNew, Act.evemuRead,
       Act.setName ("evemu-" ++ toString e.pid),
       Act.createManaged ("evemu-" ++ toString e.pid)] ∧
    "evemu-" ++ toString e.pid ≠ "" := by
  refine ⟨?_, synthetic_name_ne_empty (toString e.pid)⟩
  simp only [create_device, hn, hname, Bool.true_eq_false, if_false,
    show ¬(e.readRet = 0) by omega, show ¬(e.readRet < 0) by omega, if_true]
  split_ifs <;> simp

/-- Concrete instance of c5_synthetic_name at pid 42. -/
theorem c5_synthetic_name_witness :
    (CreateEnv.mk true 0 1 "" 0 0 0 0 42).newOk = true ∧
    (0 : Int) < (CreateEnv.mk true 0 1 "" 0 0 0 0 42).readRet ∧
    (CreateEnv.mk true 0 1 "" 0 0 0 0 42).readName = "" ∧
    ((create_device (CreateEnv.mk true 0 1 "" 0 0 0 0 42)).2.1.take 4 =
      [Act.evemuNew, Act.evemuRead,
       Act.setName ("evemu-" ++ toString (42 : Nat)),
       Act.createManaged ("evemu-" ++ toString (42 : Nat))] ∧
     "evemu-" ++ toString (42 : Nat) ≠ "") :=
  ⟨rfl, by decide, rfl,
   c5_synthetic_name (CreateEnv.mk true 0 1 "" 0 0 0 0 42) rfl (by decide) rfl⟩

/-- Whenever the recording stream opens, play_from_file reaches the
device-creation call. -/
theorem evemuNew_in_pff (e : FileModeEnv) (off : Int) (hf : e.fdopenOk = true) :
    Act.evemuNew ∈ (play_from_file e off).2 := by
  have hmem := evemuNew_in_create e.ce
  unfold play_from_file
  rw [hf]
  simp only [Bool.true_eq_false, if_false]
  split
  · simp [hmem]
  · split <;> simp [hmem]

/-- Claim C1: the replay command selects its mode from the target's
file-type metadata alone.  When the opened target is a character special
device it runs live mode: evemu_play reads from standard input and writes
onto the already-open target descriptor with start offset exactly 0 (even
when an offset argument was given), and no device is allocated or
registered.  Otherwise it runs file mode, which reaches the device-creation
call whenever the recording stream opens. -/
theorem c1_mode_selection (e : PlayEnv) (h2 : 2 ≤ e.argc) (h3 : e.argc ≤ 3)
    (ho : e.openOk = true) (hs : e.fstatOk = true) :
    (e.isChr = true →
      Act.evemuPlayCall Source.stdinS e.targetFd 0 ∈ (play e).2 ∧
      Act.evemuNew ∉ (play e).2 ∧
      ∀ n, Act.createManaged n ∉ (play e).2) ∧
    (e.isChr = false → e.fileEnv.fdopenOk = true →
      Act.evemuNew ∈ (play e).2) := by
  have hcond : ¬(e.argc < 2 ∨ 3 < e.argc) := by omega
  constructor
  · intro hch
    simp only [play, hcond, if_false, ho, hs, hch, Bool.true_eq_false, if_true,
      play_from_stdin]
    refine ⟨by split_ifs <;> simp, ?_, ?_⟩
    · split_ifs <;> simp
    · intro n; split_ifs <;> simp
  · intro hch hf
    have hmem := evemuNew_in_pff e.fileEnv (if e.argc = 3 then e.offsetArg else 0) hf
    simp only [play, hcond, if_false, ho, hs, hch, Bool.false_eq_true,
      Bool.true_eq_false, if_true]
    split_ifs at hmem ⊢ <;> simp [hmem]

/-- Concrete instance of c1_mode_selection, live branch exercisable: a
character-device target with an offset argument present. -/
theorem c1_mode_selection_witness :
    (PlayEnv.mk 3 500 true 4 true true 0
        (FileModeEnv.mk true (CreateEnv.mk true 0 1 "n" 0 0 0 0 1) (OpenDevEnv.mk true 5) 0)).isChr = true ∧
    Act.evemuPlayCall Source.stdinS 4 0 ∈
      (play (PlayEnv.mk 3 500 true 4 true true 0
        (FileModeEnv.mk true (CreateEnv.mk true 0 1 "n" 0 0 0 0 1) (OpenDevEnv.mk true 5) 0))).2 ∧
    Act.evemuNew ∉
      (play (PlayEnv.mk 3 500 true 4 true true 0
        (FileModeEnv.mk true (CreateEnv.mk true 0 1 "n" 0 0 0 0 1) (OpenDevEnv.mk true 5) 0))).2 :=
  ⟨rfl,
   ((c1_mode_selection (PlayEnv.mk 3 500 true 4 true true 0
        (FileModeEnv.mk true (CreateEnv.mk true 0 1 "n" 0 0 0 0 1) (OpenDevEnv.mk true 5) 0))
      (by decide) (by decide) rfl rfl).1 rfl).1,
   ((c1_mode_selection (PlayEnv.mk 3 500 true 4 true true 0
        (FileModeEnv.mk true (CreateEnv.mk true 0 1 "n" 0 0 0 0 1) (OpenDevEnv.mk true 5) 0))
      (by decide) (by decide) rfl rfl).1 rfl).2.1⟩

/-- Claim C3: in file mode, whenever create_device returns a handle,
play_from_file deletes the device and issues fclose on the recording stream
and close on the node descriptor on every exit path: node-open failure,
replay failure and successful replay alike (the environment quantifies over
all three). -/
theorem c3_file_mode_teardown (e : FileModeEnv) (off : Int) (hf : e.fdopenOk = true)
    (hc : (create_device e.ce).1.isSome = true) :
    Act.evemuDelete ∈ (play_from_file e off).2 ∧
    Act.fcloseCall ∈ (play_from_file e off).2 ∧
    Act.closeFd ∈ (play_from_file e off).2 := by
  unfold play_from_file
  rw [hf]
  simp only [Bool.true_eq_false, if_false]
  split
  · next heq => rw [heq] at hc; simp at hc
  · split
    · simp
    · split_ifs <;> simp

/-- Concrete instance of c3_file_mode_teardown on the replay-failure path. -/
theorem c3_file_mode_teardown_witness :
    (FileModeEnv.mk true (CreateEnv.mk true 0 1 "n" 0 0 0 0 1) (OpenDevEnv.mk true 5) 9).fdopenOk = true ∧
    (create_device (FileModeEnv.mk true (CreateEnv.mk true 0 1 "n" 0 0 0 0 1) (OpenDevEnv.mk true 5) 9).ce).1.isSome = true ∧
    (Act.evemuDelete ∈ (play_from_file (FileModeEnv.mk true (CreateEnv.mk true 0 1 "n" 0 0 0 0 1) (OpenDevEnv.mk true 5) 9) 0).2 ∧
     Act.fcloseCall ∈ (play_from_file (FileModeEnv.mk true (CreateEnv.mk true 0 1 "n" 0 0 0 0 1) (OpenDevEnv.mk true 5) 9) 0).2 ∧
     Act.closeFd ∈ (play_from_file (FileModeEnv.mk true (CreateEnv.mk true 0 1 "n" 0 0 0 0 1) (OpenDevEnv.mk true 5) 9) 0).2) :=
  ⟨rfl, rfl,
   c3_file_mode_teardown (FileModeEnv.mk true (CreateEnv.mk true 0 1 "n" 0 0 0 0 1) (OpenDevEnv.mk true 5) 9) 0 rfl rfl⟩

/-- Shape of play's result in file mode once the target opened and was
stat-ed: the mode function's return value is discarded and play returns 0
with the file-mode trace. -/
theorem play_file_branch (e : PlayEnv) (h2 : 2 ≤ e.argc) (h3 : e.argc ≤ 3)
    (ho : e.openOk = true) (hs : e.fstatOk = true) (hch : e.isChr = false) :
    play e = (0, (if e.argc = 3 then [Act.stdoutMsg Msg.offsetBanner] else [])
      ++ (play_from_file e.fileEnv (if e.argc = 3 then e.offsetArg else 0)).2
      ++ [Act.closeFd]) := by
  have hcond : ¬(e.argc < 2 ∨ 3 < e.argc) := by omega
  simp only [play, hcond, if_false, ho, hs, hch, Bool.true_eq_false,
    Bool.false_eq_true, if_true]

/-- Shape of play's result in live mode once the target opened and was
stat-ed: the mode function's return value is discarded and play returns 0
with the live-mode trace. -/
theorem play_live_branch (e : PlayEnv) (h2 : 2 ≤ e.argc) (h3 : e.argc ≤ 3)
    (ho : e.openOk = true) (hs : e.fstatOk = true) (hch : e.isChr = true) :
    play e = (0, (if e.argc = 3 then [Act.stdoutMsg Msg.offsetBanner] else [])
      ++ (play_from_stdin e.targetFd e.stdinPlayRet).2 ++ [Act.closeFd]) := by
  have hcond : ¬(e.argc < 2 ∨ 3 < e.argc) := by omega
  simp only [play, hcond, if_false, ho, hs, hch, Bool.true_eq_false,
    Bool.false_eq_true, if_true]

/-- When file mode reaches the replay stage and evemu_play fails, the
replay-failed diagnostic is emitted. -/
theorem replayFailed_in_pff (e : FileModeEnv) (off : Int) (hf : e.fdopenOk = true)
    (hcd : (create_device e.ce).1.isSome = true)
    (hfd : 0 ≤ (open_evemu_device e.od).1) (hpr : e.playRet ≠ 0) :
    Act.stderrMsg Msg.replayFailed ∈ (play_from_file e off).2 := by
  unfold play_from_file
  rw [hf]
  simp only [Bool.true_eq_false, if_false]
  split
  · next heq => rw [heq] at hcd; simp at hcd
  · split
    · next hlt => exact absurd hlt (by omega)
    · simp [hpr]

/-- Claim C7: in file mode, once setup has reached the replay stage (stream
opened, device created, node opened), the replay command play returns 0
whatever evemu_play returns, and a failing replay is reported on the error
stream. -/
theorem c7_file_mode_exit_zero (e : PlayEnv) (h2 : 2 ≤ e.argc) (h3 : e.argc ≤ 3)
    (ho : e.openOk = true) (hs : e.fstatOk = true) (hch : e.isChr = false)
    (hf : e.fileEnv.fdopenOk = true)
    (hcd : (create_device e.fileEnv.ce).1.isSome = true)
    (hfd : 0 ≤ (open_evemu_device e.fileEnv.od).1) :
    (play e).1 = 0 ∧
    (e.fileEnv.playRet ≠ 0 → Act.stderrMsg Msg.replayFailed ∈ (play e).2) := by
  have hb := play_file_branch e h2 h3 ho hs hch
  refine ⟨by rw [hb], ?_⟩
  intro hpr
  have hmem := replayFailed_in_pff e.fileEnv (if e.argc = 3 then e.offsetArg else 0)
    hf hcd hfd hpr
  rw [hb]
  simp [hmem]

/-- Concrete instance of c7_file_mode_exit_zero with a failing replay
(evemu_play returns 9). -/
theorem c7_file_mode_exit_zero_witness :
    ((play (PlayEnv.mk 2 0 true 4 true false 0
        (FileModeEnv.mk true (CreateEnv.mk true 0 1 "n" 0 0 0 0 1) (OpenDevEnv.mk true 5) 9))).1 = 0 ∧
     ((PlayEnv.mk 2 0 true 4 true false 0
        (FileModeEnv.mk true (CreateEnv.mk true 0 1 "n" 0 0 0 0 1) (OpenDevEnv.mk true 5) 9)).fileEnv.playRet ≠ 0 →
       Act.stderrMsg Msg.replayFailed ∈
         (play (PlayEnv.mk 2 0 true 4 true false 0
           (FileModeEnv.mk true (CreateEnv.mk true 0 1 "n" 0 0 0 0 1) (OpenDevEnv.mk true 5) 9))).2)) :=
  c7_file_mode_exit_zero (PlayEnv.mk 2 0 true 4 true false 0
      (FileModeEnv.mk true (CreateEnv.mk true 0 1 "n" 0 0 0 0 1) (OpenDevEnv.mk true 5) 9))
    (by decide) (by decide) rfl rfl rfl rfl rfl (by decide)

/-- Claim C10: in live mode the replay command also returns 0 when the
stdin replay fails: play discards play_from_stdin's return value, so the
failure is only reported on the error stream. -/
theorem c10_live_mode_exit_zero (e : PlayEnv) (h2 : 2 ≤ e.argc) (h3 : e.argc ≤ 3)
    (ho : e.openOk = true) (hs : e.fstatOk = true) (hch : e.isChr = true)
    (hr : e.stdinPlayRet ≠ 0) :
    (play e).1 = 0 ∧ Act.stderrMsg Msg.replayFailed ∈ (play e).2 := by
  have hb := play_live_branch e h2 h3 ho hs hch
  rw [hb]
  exact ⟨rfl, by simp [play_from_stdin, hr]⟩

/-- Concrete instance of c10_live_mode_exit_zero with evemu_play
returning -1 on the stdin stream. -/
theorem c10_live_mode_exit_zero_witness :
    (PlayEnv.mk 2 0 true 4 true true (-1)
        (FileModeEnv.mk true (CreateEnv.mk true 0 1 "n" 0 0 0 0 1) (OpenDevEnv.mk true 5) 0)).stdinPlayRet ≠ 0 ∧
    ((play (PlayEnv.mk 2 0 true 4 true true (-1)
        (FileModeEnv.mk true (CreateEnv.mk true 0 1 "n" 0 0 0 0 1) (OpenDevEnv.mk true 5) 0))).1 = 0 ∧
     Act.stderrMsg Msg.replayFailed ∈
       (play (PlayEnv.mk 2 0 true 4 true true (-1)
         (FileModeEnv.mk true (CreateEnv.mk true 0 1 "n" 0 0 0 0 1) (OpenDevEnv.mk true 5) 0))).2) :=
  ⟨by decide,
   c10_live_mode_exit_zero (PlayEnv.mk 2 0 true 4 true true (-1)
       (FileModeEnv.mk true (CreateEnv.mk true 0 1 "n" 0 0 0 0 1) (OpenDevEnv.mk true 5) 0))
     (by decide) (by decide) rfl rfl rfl (by decide)⟩

/-- Claim C6 (code bug): a fully clean run of the create-device command —
description loaded (evemu_read returns 1), device registered
(evemu_create_managed returns 0), node opened, hold loop entered and
drained to EOF — still makes device return -1 and print the
could-not-create-device diagnostic, because the check `if (ret <= 0)`
treats evemu_device's success return 0 as a failure.  The readDev action in
the trace shows the hold loop really ran. -/
theorem c6_clean_run_reports_failure :
    (device (DeviceEnv.mk 2 true (CreateEnv.mk true 0 1 "vtest" 0 0 0 0 7)
        (OpenDevEnv.mk true 3) [ReadResult.mk 4 [1], ReadResult.mk 0 []])).1 = -1 ∧
    Act.stderrMsg Msg.createDeviceFailed ∈
      (device (DeviceEnv.mk 2 true (CreateEnv.mk true 0 1 "vtest" 0 0 0 0 7)
        (OpenDevEnv.mk true 3) [ReadResult.mk 4 [1], ReadResult.mk 0 []])).2 ∧
    Act.readDev ∈
      (device (DeviceEnv.mk 2 true (CreateEnv.mk true 0 1 "vtest" 0 0 0 0 7)
        (OpenDevEnv.mk true 3) [ReadResult.mk 4 [1], ReadResult.mk 0 []])).2 := by
  decide

/-- No action of the non-tuner components is a tuner attempt: the
constructor-level facts, one per action kind. -/
@[simp] theorem isTune_stdout (m : Msg) : (Act.stdoutMsg m).isTuneAttempt = false := rfl

@[simp] theorem isTune_stderr (m : Msg) : (Act.stderrMsg m).isTuneAttempt = false := rfl

@[simp] theorem isTune_new : Act.evemuNew.isTuneAttempt = false := rfl

@[simp] theorem isTune_read : Act.evemuRead.isTuneAttempt = false := rfl

@[simp] theorem isTune_setName (n : String) : (Act.setName n).isTuneAttempt = false := rfl

@[simp] theorem isTune_createManaged (n : String) : (Act.createManaged n).isTuneAttempt = false := rfl

@[simp] theorem isTune_destroy : Act.evemuDestroy.isTuneAttempt = false := rfl

@[simp] theorem isTune_delete : Act.evemuDelete.isTuneAttempt = false := rfl

@[simp] theorem isTune_fseek : Act.fseekCall.isTuneAttempt = false := rfl

@[simp] theorem isTune_playCall (s : Source) (fd off : Int) :
    (Act.evemuPlayCall s fd off).isTuneAttempt = false := rfl

@[simp] theorem isTune_readDev : Act.readDev.isTuneAttempt = false := rfl

@[simp] theorem isTune_closeFd : Act.closeFd.isTuneAttempt = false := rfl

@[simp] theorem isTune_fclose : Act.fcloseCall.isTuneAttempt = false := rfl

/-- The tuner's trace always contains exactly the three attempts, in
order, whatever succeeded or failed. -/
theorem filter_tune_setup (te : TuneEnv) :
    (setup_realtime_cpu te).filter Act.isTuneAttempt =
      [Act.pinCpu, Act.setSchedCall, Act.lockMemCall] := by
  rcases te with ⟨a, s, m⟩
  cases a <;> cases s <;> cases m <;> rfl

/-- Tuner-attempt-freeness is preserved by concatenation. -/
theorem no_tune_append {l1 l2 : List Act}
    (h1 : ∀ a ∈ l1, a.isTuneAttempt = false)
    (h2 : ∀ a ∈ l2, a.isTuneAttempt = false) :
    ∀ a ∈ l1 ++ l2, a.isTuneAttempt = false := by
  intro a ha
  rcases List.mem_append.mp ha with h | h
  · exact h1 a h
  · exact h2 a h

/-- create_device performs no scheduling-tuner attempt. -/
theorem create_no_tune (ce : CreateEnv) :
    ∀ a ∈ (create_device ce).2.1, a.isTuneAttempt = false := by
  unfold create_device
  split_ifs <;> simp

/-- open_evemu_device performs no scheduling-tuner attempt. -/
theorem openDev_no_tune (e : OpenDevEnv) :
    ∀ a ∈ (open_evemu_device e).2, a.isTuneAttempt = false := by
  unfold open_evemu_device
  split_ifs <;> simp

/-- The drain loop performs no scheduling-tuner attempt. -/
theorem drain_no_tune (rs : List ReadResult) :
    ∀ a ∈ drain rs, a.isTuneAttempt = false := by
  induction rs with
  | nil => simp [drain]
  | cons r rs ih =>
      simp only [drain]
      split_ifs with h
      · intro a ha
        rcases List.mem_cons.mp ha with h1 | h2
        · simp [h1]
        · exact ih a h2
      · simp

/-- open_and_hold_device performs no scheduling-tuner attempt. -/
theorem hold_no_tune (od : OpenDevEnv) (reads : List ReadResult) :
    ∀ a ∈ open_and_hold_device od reads, a.isTuneAttempt = false := by
  have ho := openDev_no_tune od
  have hdr := drain_no_tune reads
  simp only [open_and_hold_device]
  split_ifs with h
  · exact ho
  · exact no_tune_append (no_tune_append ho hdr) (by simp)

/-- evemu_device performs no scheduling-tuner attempt. -/
theorem evemu_device_no_tune (ce : CreateEnv) (od : OpenDevEnv)
    (reads : List ReadResult) :
    ∀ a ∈ (evemu_device ce od reads).2, a.isTuneAttempt = false := by
  have hc := create_no_tune ce
  have hh := hold_no_tune od reads
  unfold evemu_device
  split
  · exact hc
  · exact no_tune_append (no_tune_append hc hh) (by simp)

/-- The create-device command performs no scheduling-tuner attempt. -/
theorem device_no_tune (e : DeviceEnv) :
    ∀ a ∈ (device e).2, a.isTuneAttempt = false := by
  have hd := evemu_device_no_tune e.ce e.od e.reads
  simp only [device]
  split_ifs
  · simp
  · simp
  · exact no_tune_append hd (by simp)
  · exact no_tune_append hd (by simp)

/-- play_from_stdin performs no scheduling-tuner attempt. -/
theorem pfs_no_tune (fd playRet : Int) :
    ∀ a ∈ (play_from_stdin fd playRet).2, a.isTuneAttempt = false := by
  unfold play_from_stdin
  split_ifs <;> simp

/-- play_from_file performs no scheduling-tuner attempt. -/
theorem pff_no_tune (e : FileModeEnv) (off : Int) :
    ∀ a ∈ (play_from_file e off).2, a.isTuneAttempt = false := by
  have hc := create_no_tune e.ce
  have ho := openDev_no_tune e.od
  simp only [play_from_file]
  split
  · simp
  · split
    · exact no_tune_append hc (by simp)
    · split_ifs with h1 h2
      · exact no_tune_append (no_tune_append hc ho) (by simp)
      · exact no_tune_append (no_tune_append (no_tune_append (no_tune_append hc ho)
          (by simp)) (by simp)) (by simp)
      · exact no_tune_append (no_tune_append (no_tune_append (no_tune_append hc ho)
          (by simp)) (by simp)) (by simp)

/-- The replay command performs no scheduling-tuner attempt. -/
theorem play_no_tune (e : PlayEnv) :
    ∀ a ∈ (play e).2, a.isTuneAttempt = false := by
  have hs := pfs_no_tune e.targetFd e.stdinPlayRet
  have hf3 := pff_no_tune e.fileEnv e.offsetArg
  have hf0 := pff_no_tune e.fileEnv 0
  simp only [play]
  split_ifs
  · simp
  · simp
  · simp
  · exact no_tune_append (no_tune_append (by simp) hs) (by simp)
  · exact no_tune_append (no_tune_append (by simp) hs) (by simp)
  · exact no_tune_append (no_tune_append (by simp) hf3) (by simp)
  · exact no_tune_append (no_tune_append (by simp) hf0) (by simp)

/-- A trace without tuner attempts filters to the empty list. -/
theorem filter_eq_nil_of_no_tune {l : List Act}
    (h : ∀ a ∈ l, a.isTuneAttempt = false) :
    l.filter Act.isTuneAttempt = [] := by
  induction l with
  | nil => rfl
  | cons a l ih =>
      have ha := h a (by simp)
      rw [List.filter_cons, ha]
      simp only [Bool.false_eq_true, if_false]
      exact ih (fun x hx => h x (by simp [hx]))

/-- The tuner's trace always has six entries: three attempts, three logs. -/
theorem setup_length (te : TuneEnv) : (setup_realtime_cpu te).length = 6 := rfl

/-- Claim C8: the scheduling tuner attempts all three steps — CPU pinning,
real-time scheduler elevation, memory locking — unconditionally and in that
order: whatever combination of steps fails, the trace contains exactly
those three attempts in that order, each step merely logged.  The tuner has
no failure return: main's exit status and its whole trace after the tuner
are identical for every tuner outcome.  And it runs exactly once, at the
start of main, before any device or replay work: the tuner's actions are
the first six of main's trace and the rest of the trace contains no tuner
attempt. -/
theorem c8_tuner_best_effort (te te' : TuneEnv) (r : MainRest) :
    (setup_realtime_cpu te).filter Act.isTuneAttempt =
      [Act.pinCpu, Act.setSchedCall, Act.lockMemCall] ∧
    (main_run te r).2.take 6 = setup_realtime_cpu te ∧
    (main_run te r).2.filter Act.isTuneAttempt =
      [Act.pinCpu, Act.setSchedCall, Act.lockMemCall] ∧
    (main_run te r).1 = (main_run te' r).1 ∧
    (main_run te r).2.drop 6 = (main_run te' r).2.drop 6 := by
  refine ⟨filter_tune_setup te, ?_, ?_, ?_, ?_⟩
  · unfold main_run
    by_cases hp : r.progName = "evemu-device" ∨ r.progName = "lt-evemu-device" <;>
      simp only [hp, if_true, if_false] <;>
      · rw [show (6 : Nat) = (setup_realtime_cpu te).length from rfl]
        exact List.take_left _ _
  · unfold main_run
    by_cases hp : r.progName = "evemu-device" ∨ r.progName = "lt-evemu-device" <;>
      simp only [hp, if_true, if_false]
    · rw [List.filter_append, filter_tune_setup,
          filter_eq_nil_of_no_tune (device_no_tune r.devE), List.append_nil]
    · rw [List.filter_append, filter_tune_setup,
          filter_eq_nil_of_no_tune (play_no_tune r.playE), List.append_nil]
  · unfold main_run
    by_cases hp : r.progName = "evemu-device" ∨ r.progName = "lt-evemu-device" <;>
      simp [hp]
  · unfold main_run
    by_cases hp : r.progName = "evemu-device" ∨ r.progName = "lt-evemu-device" <;>
      simp only [hp, if_true, if_false] <;>
      · rw [show (6 : Nat) = (setup_realtime_cpu te).length from rfl, List.drop_left,
            show ((setup_realtime_cpu te).length : Nat) = (setup_realtime_cpu te').length from rfl,
            List.drop_left]
